import Mathlib

/-!
Verification of the Fanta-Calcio-Agent repository (agent.py, fastemb.py,
processing.py, scraper.py) against its natural-language specification.

Python values are shallowly embedded: strings are Lean `String`s, Python
`None`-or-value slots are `Option`s, dictionaries with a fixed set of keys
become structures with `Option` fields (`.get(k, default)` becomes
`Option.getD`), exceptions from external calls become `Except` results of
an oracle function passed in as a parameter, and printed output becomes an
explicit list of emitted lines or events.
-/

/-- Truthiness of a Python string slot: `None` and the empty string are
falsy, every other string is truthy. -/
def truthyStr : Option String → Bool
  | none => false
  | some s => s ≠ ""

/-- Python `a or b` on string slots: the first operand when it is truthy,
otherwise the second operand. -/
def pyOr (a b : Option String) : Option String :=
  if truthyStr a then a else b

/-- Python `sub in s` for strings: substring containment on the character
lists. -/
def pySubstr (a b : String) : Bool := decide (a.data <:+: b.data)

/-- Python `s.startswith(pre)`. -/
def pyStartsWith (pre s : String) : Bool := decide (pre.data <+: s.data)

/-- Python `str.lower` on a single character (ASCII case mapping, the
fragment exercised by team names). -/
def pyLowerChar (c : Char) : Char :=
  if c.isUpper then Char.ofNat (c.toNat + 32) else c

/-- The whitespace characters removed by Python `str.strip()` (the ASCII
fragment). -/
def wsChar (c : Char) : Bool :=
  c = ' ' || c = '\t' || c = '\n' || c = '\r'

/-- Remove trailing characters satisfying `p`. -/
def dropWhileEnd (p : α → Bool) (l : List α) : List α :=
  (l.reverse.dropWhile p).reverse

/-- Python `str.strip()` on a character list: remove leading and trailing
whitespace. -/
def stripChars (l : List Char) : List Char :=
  dropWhileEnd wsChar (l.dropWhile wsChar)

/-- Python `s.lower()` on a string. -/
def pyLower (s : String) : String := ⟨s.data.map pyLowerChar⟩

/-- Python `s.strip()` on a string. -/
def pyStrip (s : String) : String := ⟨stripChars s.data⟩

/-- Python `sep.join(parts)`. -/
def pyJoin (sep : String) : List String → String
  | [] => ""
  | [a] => a
  | a :: b :: rest => a ++ sep ++ pyJoin sep (b :: rest)

/-- Python `f"{a} {b}".strip()` used for a player's full name. -/
def pyFullName (a b : String) : String := pyStrip (a ++ " " ++ b)

/-! ## scraper.py -/

/-- Source scraper.py lines 118-123, `normalize_name`: returns `""` on a
falsy input (`None` or `""`), otherwise lowercases then strips the name.
The argument is an `Option String` because callers pass values obtained
from `.get(...)` that may be `None`. -/
def normalize_name : Option String → String
  | none => ""
  | some s => if s = "" then "" else pyStrip (pyLower s)

/-- A team object inside a Sky match (`sky_match.get('home', {})`); only
the `name` key is read by the merge. -/
structure SkyTeam where
  name : Option String
deriving Repr, DecidableEq

/-- A Sky match as read by `integrate_and_save`: the `home` and `away`
keys may be absent (`.get('home', {})`). -/
structure SkyMatch where
  home : Option SkyTeam
  away : Option SkyTeam
deriving Repr, DecidableEq

/-- A Fantacalcio match dict produced by `get_fantacalcio_data`: the
`home_team` and `away_team` keys are always present but their values come
from `meta.get("content")` and may be `None`. -/
structure FantaMatch where
  home_team : Option String
  away_team : Option String
deriving Repr, DecidableEq

/-- One merged entry of `combined_data` in `integrate_and_save`. -/
structure MergedMatch where
  match_name : String
  source_sky : SkyMatch
  source_fantacalcio : Option FantaMatch
deriving Repr, DecidableEq

/-- Source scraper.py line 139/140: `sky_match.get('home', {}).get('name', '')`. -/
def skyName (t : Option SkyTeam) : String :=
  (t.bind SkyTeam.name).getD ""

/-- Source scraper.py lines 159-162: the match predicate between one Sky
match's normalized names and one Fantacalcio match. `home_match` and
`away_match` each hold when one normalized name is a substring of the
other, in either direction. -/
def fantaMatchPred (skyHome skyAway : String) (fm : FantaMatch) : Bool :=
  let fantaHome := normalize_name fm.home_team
  let fantaAway := normalize_name fm.away_team
  (pySubstr skyHome fantaHome || pySubstr fantaHome skyHome) &&
  (pySubstr skyAway fantaAway || pySubstr fantaAway skyAway)

/-- Source scraper.py lines 136-166, the merge loop of
`integrate_and_save`: one combined entry per Sky match in order; the inner
loop with `break` takes the first matching Fantacalcio entry, defaulting
to `None`. -/
def integrateMatches (sky_matches : List SkyMatch) (fanta_matches : List FantaMatch) :
    List MergedMatch :=
  sky_matches.map (fun sky_match =>
    let sky_home_name := skyName sky_match.home
    let sky_away_name := skyName sky_match.away
    let sky_home := normalize_name (some sky_home_name)
    let sky_away := normalize_name (some sky_away_name)
    { match_name := sky_home_name ++ " - " ++ sky_away_name
      source_sky := sky_match
      source_fantacalcio := fanta_matches.find? (fantaMatchPred sky_home sky_away) })

/-! ## processing.py -/

/-- A player dict in `playerList.startingLineup`; each key is read via
`.get` with a default, so each field may be absent. -/
structure SkyPlayer where
  name : Option String
  surname : Option String
  role : Option String
deriving Repr, DecidableEq

/-- The `playerList` dict of a team (`team_data.get('playerList', {})`). -/
structure PlayerListData where
  startingLineup : Option (List SkyPlayer)
deriving Repr, DecidableEq

/-- A Sky team-data dict as consumed by `get_sky_players`; `none` stands
for a falsy `team_data` (Python `None` or an empty dict). -/
structure TeamData where
  playerList : Option PlayerListData
deriving Repr, DecidableEq

/-- Source processing.py lines 23-31, the loop body: the entry produced
for one player, or `none` when the stripped full name is empty. -/
def skyPlayerEntry (player : SkyPlayer) : Option String :=
  let name := player.name.getD ""
  let surname := player.surname.getD ""
  let role := player.role.getD "N/A"
  let full_name := pyFullName name surname
  if full_name = "" then none else some (full_name ++ " (" ++ role ++ ")")

/-- Source processing.py lines 19-31: the qualifying starter entries of
`playerList.startingLineup`. -/
def skyStarters (team_data : TeamData) : List String :=
  let player_list_obj := team_data.playerList.getD ⟨none⟩
  let starting_lineup := player_list_obj.startingLineup.getD []
  starting_lineup.filterMap skyPlayerEntry

/-- Source processing.py lines 9-36, `get_sky_players`: `"Data not
available"` on falsy input, otherwise the comma-joined qualifying entries
of `playerList.startingLineup`, and `"No players found"` when none
qualifies. The `try/except` of the source cannot fire in the embedding
because the typed accessors are total. -/
def get_sky_players : Option TeamData → String
  | none => "Data not available"
  | some team_data =>
    let starters := skyStarters team_data
    if starters = [] then "No players found" else pyJoin ", " starters

/-! ## agent.py: the patched query embedder -/

/-- One request issued to `genai.embed_content`. -/
structure GenaiCall where
  model : String
  content : String
  taskType : String
deriving Repr, DecidableEq

/-- The response dict of `genai.embed_content`; the code reads its
`'embedding'` key. -/
structure GenaiResponse where
  embedding : List Float
deriving Repr

/-- The embedding API as an oracle: a request either returns a response or
raises, which the embedding models as an `Except` error value. -/
def GenaiOracle : Type := String → String → String → Except String GenaiResponse

/-- Source agent.py lines 42-45: the fallback chain
`text or input or kwargs.get('text') or kwargs.get('input')` selecting the
query among the interchangeable input fields. -/
def selectQuery (text input kwText kwInput : Option String) : Option String :=
  pyOr (pyOr (pyOr text input) kwText) kwInput

/-- Source agent.py lines 42-64, `FixedGoogleEmbedder._run`: returns the
vector produced together with the list of API requests issued. An empty or
missing query returns `[]` without any request; an API error is caught and
also yields `[]`. The return type is total, so no exception propagates. -/
def fixedGoogleEmbedderRun (model_name : String) (genai : GenaiOracle)
    (text input kwText kwInput : Option String) : List Float × List GenaiCall :=
  let query := selectQuery text input kwText kwInput
  if truthyStr query then
    match query with
    | some q =>
      match genai model_name q "retrieval_query" with
      | .ok result => (result.embedding, [⟨model_name, q, "retrieval_query"⟩])
      | .error _ => ([], [⟨model_name, q, "retrieval_query"⟩])
    | none => ([], [])
  else ([], [])

/-- Source agent.py line 28: the configured Google embedding model. -/
def GOOGLE_MODEL_NAME : String := "models/text-embedding-004"

/-- Source agent.py lines 92-95: the model name the `FixedGoogleEmbedder`
is constructed with. -/
def agentEmbedderModelName : String := GOOGLE_MODEL_NAME

/-- Source agent.py lines 127-131: the model name and batch size the
document-embedding `ChunkEmbedder` is configured with. -/
def agentChunkEmbedderModelName : String := GOOGLE_MODEL_NAME

/-- Source agent.py line 130: `batch_size=50`. -/
def agentChunkEmbedderBatchSize : Nat := 50

/-! ## Document embedding: fastemb.py and the ChunkEmbedder batching -/

/-- Source fastemb.py lines 44-72, `FastEmbedder.embed`, dense list
branch: the underlying `fastembed` generator is an oracle `E`; the method
converts each produced embedding to a list and, for list input, returns
the whole result list. -/
def fastEmbedderEmbedList (E : List String → List (List Float))
    (text : List String) : List (List Float) :=
  E text

/-- Modelled from the spec: the batch partition of `ChunkEmbedder`
(datapizza library, not under src/), which `embed_documents` uses —
"partition the input into batches no larger than the externally imposed
API cap". Batches are consecutive runs of at most `C` chunks. -/
def batchChunks (C : Nat) : List α → List (List α)
  | [] => []
  | x :: xs => (x :: xs.take (C - 1)) :: batchChunks C (xs.drop (C - 1))
termination_by l => l.length
decreasing_by simp; omega

/-- Modelled from the spec: `embed_documents` of the `ChunkEmbedder`
(datapizza library, not under src/) — "embed each batch independently,
concatenating results in original order". `f` is one underlying embedding
call on one batch. -/
def embed_documents (f : List String → List (List Float)) (C : Nat)
    (texts : List String) : List (List Float) :=
  ((batchChunks C texts).map f).flatten

/-- Modelled from the spec: the number of underlying embedding calls
`embed_documents` issues is one per batch. -/
def embedDocumentsCalls (C : Nat) (texts : List String) : Nat :=
  (batchChunks C texts).length

/-! ## agent.py: startup validation and the chat loop -/

/-- The observable actions of `main` during startup, in order. -/
inductive MainEvent where
  | printed (line : String)
  | genaiConfigured
  | llmClientCreated
  | embedderClientCreated
  | vectorstoreCreated
  | ingestionRan
  | dagBuilt
  | chatLoopEntered
deriving Repr, DecidableEq

/-- Source agent.py lines 66-76 (with the happy path of lines 78-205
abbreviated to its event sequence): the startup of `main`. A missing or
malformed Groq key, or a missing Google key, prints one error line and
returns before any client, ingestion or DAG work. -/
def mainStartup (groq_key google_key : Option String) : List MainEvent :=
  if !truthyStr groq_key || !pyStartsWith "gsk_" (groq_key.getD "") then
    [.printed "ERROR: Invalid or missing GROQ_API_KEY."]
  else if !truthyStr google_key then
    [.printed "ERROR: Missing GOOGLE_API_KEY."]
  else
    [.genaiConfigured, .llmClientCreated, .embedderClientCreated,
     .vectorstoreCreated, .ingestionRan, .dagBuilt, .chatLoopEntered]

/-- The events that only the happy path of `main` performs. -/
def pipelineEvents : List MainEvent :=
  [.genaiConfigured, .llmClientCreated, .embedderClientCreated,
   .vectorstoreCreated, .ingestionRan, .dagBuilt, .chatLoopEntered]

/-- The result of one successful DAG run as read by the loop body: the
chunks found under the `retriever` key (text of each chunk) and the final
answer under the `generator` key. -/
structure TurnResult where
  retrieverChunks : List String
  generatorAnswer : String
deriving Repr

/-- Source agent.py lines 230-232: the two warning lines printed when the
retriever found nothing. -/
def noDocsWarning : List String :=
  ["ATTENZIONE: Il Retriever non ha trovato NESSUN documento!",
   "Possibili cause: Embeddings disallineati o PDF non letto correttamente."]

/-- Source agent.py lines 210-246, the `try/except` body of one query
turn: a raised exception (the `Except.error` case of the DAG run oracle)
is caught and reported as one `Pipeline Error` line; a successful run
prints the debug block — the no-documents warning when the retriever
returned nothing, otherwise one preview line per chunk — then the final
answer. -/
def turnOutput : Except String TurnResult → List String
  | .error e => ["Pipeline Error: " ++ e]
  | .ok res =>
    (if res.retrieverChunks = [] then noDocsWarning
     else res.retrieverChunks.map (fun c => "[] " ++ c)) ++
    ["Agent: " ++ res.generatorAnswer]

/-- Source agent.py lines 205-246, the chat loop over a finite
interaction script: each element pairs the line read by `input()` with the
outcome of running the DAG for it. `exit`/`quit` (case-insensitive)
breaks; every other turn appends its output and the loop continues. -/
def chatLoop : List (String × Except String TurnResult) → List String
  | [] => []
  | (user_query, outcome) :: rest =>
    if pyLower user_query = "exit" || pyLower user_query = "quit" then []
    else turnOutput outcome ++ chatLoop rest

/-! ## Character-level lemmas about the Python string primitives -/

lemma pyLowerChar_isUpper_eq_false (c : Char) (h : c.isUpper = true) :
    (pyLowerChar c).isUpper = false := by
  simp only [pyLowerChar, h, if_true]
  simp [Char.isUpper] at h
  obtain ⟨h1, h2⟩ := h
  have hb1 : 65 ≤ c.toNat := h1
  have hb2 : c.toNat ≤ 90 := h2
  interval_cases h3 : c.toNat <;> decide

lemma pyLowerChar_idem (c : Char) : pyLowerChar (pyLowerChar c) = pyLowerChar c := by
  by_cases h : c.isUpper = true
  · have := pyLowerChar_isUpper_eq_false c h
    simp only [pyLowerChar] at this ⊢
    simp only [h, if_true] at this ⊢
    simp [this]
  · simp only [pyLowerChar]
    simp only [Bool.not_eq_true] at h
    simp [h]

lemma isUpper_wsChar_eq_false (c : Char) (h : c.isUpper = true) : wsChar c = false := by
  simp only [wsChar, Bool.or_eq_false_iff, decide_eq_false_iff_not]
  refine ⟨⟨⟨?_, ?_⟩, ?_⟩, ?_⟩ <;> rintro rfl <;> exact absurd h (by decide)

lemma wsChar_pyLowerChar (c : Char) : wsChar (pyLowerChar c) = wsChar c := by
  by_cases h : c.isUpper = true
  · rw [isUpper_wsChar_eq_false c h]
    simp only [pyLowerChar, h, if_true]
    simp [Char.isUpper] at h
    obtain ⟨h1, h2⟩ := h
    have hb1 : 65 ≤ c.toNat := h1
    have hb2 : c.toNat ≤ 90 := h2
    interval_cases h3 : c.toNat <;> decide
  · simp only [Bool.not_eq_true] at h
    simp [pyLowerChar, h]

/-! ## List-level lemmas about strip and lower -/

lemma dropWhile_dropWhile (p : α → Bool) (l : List α) :
    (l.dropWhile p).dropWhile p = l.dropWhile p := by
  induction l with
  | nil => rfl
  | cons a l ih =>
    by_cases h : p a = true
    · simp [List.dropWhile_cons, h, ih]
    · simp only [Bool.not_eq_true] at h
      simp [List.dropWhile_cons, h]

lemma dropWhile_head?_false (p : α → Bool) (l : List α) (c : α)
    (h : (l.dropWhile p).head? = some c) : p c = false := by
  induction l with
  | nil => simp at h
  | cons a l ih =>
    by_cases ha : p a = true
    · rw [List.dropWhile_cons, if_pos ha] at h
      exact ih h
    · simp only [Bool.not_eq_true] at ha
      rw [List.dropWhile_cons] at h
      simp [ha] at h
      subst h
      exact ha

lemma exists_append_dropWhile (p : α → Bool) (l : List α) :
    ∃ t, l = t ++ l.dropWhile p := by
  induction l with
  | nil => exact ⟨[], rfl⟩
  | cons a l ih =>
    by_cases h : p a = true
    · obtain ⟨t, ht⟩ := ih
      exact ⟨a :: t, by simp [List.dropWhile_cons, h, ← ht]⟩
    · simp only [Bool.not_eq_true] at h
      exact ⟨[], by simp [List.dropWhile_cons, h]⟩

lemma dropWhileEnd_head? (p : α → Bool) (l : List α) :
    dropWhileEnd p l = [] ∨ (dropWhileEnd p l).head? = l.head? := by
  obtain ⟨t, ht⟩ := exists_append_dropWhile p l.reverse
  have hl : l = (l.reverse.dropWhile p).reverse ++ t.reverse := by
    have h2 := congrArg List.reverse ht
    simpa using h2
  rcases hd : (l.reverse.dropWhile p).reverse with _ | ⟨x, xs⟩
  · left
    simpa [dropWhileEnd] using hd
  · right
    simp only [dropWhileEnd, hd]
    rw [hl, hd]
    simp

lemma dropWhileEnd_idem (p : α → Bool) (l : List α) :
    dropWhileEnd p (dropWhileEnd p l) = dropWhileEnd p l := by
  simp [dropWhileEnd, List.reverse_reverse, dropWhile_dropWhile]

lemma stripChars_dropWhile (l : List Char) :
    (stripChars l).dropWhile wsChar = stripChars l := by
  rcases hs : stripChars l with _ | ⟨c, m⟩
  · rfl
  · have hc : wsChar c = false := by
      rcases dropWhileEnd_head? wsChar (l.dropWhile wsChar) with h | h
      · rw [show dropWhileEnd wsChar (l.dropWhile wsChar) = stripChars l from rfl, hs] at h
        exact absurd h (by simp)
      · apply dropWhile_head?_false wsChar l
        rw [← h]
        rw [show dropWhileEnd wsChar (l.dropWhile wsChar) = stripChars l from rfl, hs]
        rfl
    rw [List.dropWhile_cons, if_neg (by simp [hc])]

lemma stripChars_idem (l : List Char) : stripChars (stripChars l) = stripChars l := by
  have h1 := stripChars_dropWhile l
  show dropWhileEnd wsChar ((stripChars l).dropWhile wsChar) = stripChars l
  rw [h1]
  show dropWhileEnd wsChar (dropWhileEnd wsChar (l.dropWhile wsChar)) = stripChars l
  rw [dropWhileEnd_idem]
  rfl

lemma dropWhile_wsChar_map (l : List Char) :
    (l.map pyLowerChar).dropWhile wsChar = (l.dropWhile wsChar).map pyLowerChar := by
  have hp : (wsChar ∘ pyLowerChar) = wsChar := by
    funext c
    exact wsChar_pyLowerChar c
  rw [List.dropWhile_map, hp]

lemma stripChars_map (l : List Char) :
    stripChars (l.map pyLowerChar) = (stripChars l).map pyLowerChar := by
  unfold stripChars dropWhileEnd
  rw [dropWhile_wsChar_map, ← List.map_reverse, dropWhile_wsChar_map, List.map_reverse]

lemma map_pyLowerChar_idem (l : List Char) :
    (l.map pyLowerChar).map pyLowerChar = l.map pyLowerChar := by
  rw [List.map_map]
  congr 1
  funext c
  exact pyLowerChar_idem c

/-! ## Batching lemmas -/

lemma flatten_batchChunks_aux (C : Nat) :
    ∀ (n : Nat) (l : List α), l.length ≤ n → (batchChunks C l).flatten = l := by
  intro n
  induction n with
  | zero =>
    intro l hl
    have hnil : l = [] := List.eq_nil_of_length_eq_zero (Nat.le_zero.mp hl)
    subst hnil
    rw [batchChunks]
    rfl
  | succ n ih =>
    intro l hl
    rcases l with _ | ⟨x, xs⟩
    · rw [batchChunks]
      rfl
    · simp only [List.length_cons] at hl
      rw [batchChunks]
      simp only [List.flatten_cons]
      rw [ih (xs.drop (C - 1)) (by simp only [List.length_drop]; omega)]
      simp [List.take_append_drop]

lemma flatten_batchChunks (C : Nat) (l : List α) : (batchChunks C l).flatten = l :=
  flatten_batchChunks_aux C l.length l (le_refl _)

lemma length_batchChunks_aux (C : Nat) (hC : 0 < C) :
    ∀ (n : Nat) (l : List α), l.length ≤ n →
      (batchChunks C l).length = (l.length + C - 1) / C := by
  intro n
  induction n with
  | zero =>
    intro l hl
    have hnil : l = [] := List.eq_nil_of_length_eq_zero (Nat.le_zero.mp hl)
    subst hnil
    simp [batchChunks]
    rw [Nat.div_eq_of_lt (by omega)]
  | succ n ih =>
    intro l hl
    rcases l with _ | ⟨x, xs⟩
    · simp [batchChunks]
      rw [Nat.div_eq_of_lt (by omega)]
    · simp only [List.length_cons] at hl
      rw [batchChunks]
      simp only [List.length_cons]
      rw [ih (xs.drop (C - 1)) (by simp only [List.length_drop]; omega)]
      simp only [List.length_drop]
      by_cases hx : xs.length ≤ C - 1
      · have h1 : xs.length - (C - 1) = 0 := by omega
        rw [h1]
        rw [Nat.div_eq_of_lt (by omega)]
        have h2 : xs.length + 1 + C - 1 = xs.length + C := by omega
        rw [h2, Nat.add_div_right _ hC, Nat.div_eq_of_lt (by omega)]
      · have h3 : xs.length - (C - 1) + C - 1 = xs.length := by omega
        have h4 : xs.length + 1 + C - 1 = xs.length + C := by omega
        rw [h3, h4, Nat.add_div_right _ hC]

lemma length_batchChunks (C : Nat) (hC : 0 < C) (l : List α) :
    (batchChunks C l).length = (l.length + C - 1) / C :=
  length_batchChunks_aux C hC l.length l (le_refl _)

/-! ## Join lemmas -/

lemma pyJoin_length (sep : String) :
    ∀ (l : List String) (a : String), a.length ≤ (pyJoin sep (a :: l)).length := by
  intro l
  induction l with
  | nil =>
    intro a
    exact le_refl _
  | cons b rest ih =>
    intro a
    show a.length ≤ (a ++ sep ++ pyJoin sep (b :: rest)).length
    rw [String.length_append, String.length_append]
    omega

lemma skyPlayerEntry_length_pos (p : SkyPlayer) (s : String)
    (h : skyPlayerEntry p = some s) : 0 < s.length := by
  unfold skyPlayerEntry at h
  by_cases hf : pyFullName (p.name.getD "") (p.surname.getD "") = ""
  · simp [hf] at h
  · simp only [hf, if_false] at h
    simp only [Option.some.injEq] at h
    subst h
    rw [String.length_append, String.length_append, String.length_append]
    have h2 : (" (" : String).length = 2 := rfl
    omega

lemma get_sky_players_ne_empty (td : Option TeamData) : get_sky_players td ≠ "" := by
  rcases td with _ | t
  · decide
  · show (if skyStarters t = [] then "No players found" else pyJoin ", " (skyStarters t)) ≠ ""
    rcases hs : skyStarters t with _ | ⟨a, rest⟩
    · simp
    · rw [if_neg (by simp)]
      have h1 : a.length ≤ (pyJoin ", " (a :: rest)).length := pyJoin_length ", " rest a
      have h2 : 0 < a.length := by
        have hmem : a ∈ skyStarters t := by
          rw [hs]
          exact List.mem_cons_self a rest
        unfold skyStarters at hmem
        simp only [List.mem_filterMap] at hmem
        obtain ⟨p, _, hp⟩ := hmem
        exact skyPlayerEntry_length_pos p a hp
      intro hcon
      have h3 : ("" : String).length = 0 := rfl
      rw [hcon, h3] at h1
      omega

/-! ## Claim theorems -/

/-- Claim C1: for every invocation of the query-embedding operation
(`FixedGoogleEmbedder._run`), if no non-empty query text is found among
its input fields, or if the underlying embedding call raises (the
`Except.error` case of the oracle), it returns an empty vector; embedding
the empty string returns an empty vector. The embedding's return type is
total, so no exception propagates. -/
theorem fixedGoogleEmbedder_failure_policy (m : String) (genai : GenaiOracle)
    (text input kwText kwInput : Option String) :
    (truthyStr text = false → truthyStr input = false → truthyStr kwText = false →
      truthyStr kwInput = false →
      fixedGoogleEmbedderRun m genai text input kwText kwInput = ([], [])) ∧
    (∀ q e, selectQuery text input kwText kwInput = some q →
      genai m q "retrieval_query" = .error e →
      (fixedGoogleEmbedderRun m genai text input kwText kwInput).1 = []) ∧
    (fixedGoogleEmbedderRun m genai (some "") none none none).1 = [] := by
  refine ⟨?_, ?_, ?_⟩
  · intro h1 h2 h3 h4
    have hsel : selectQuery text input kwText kwInput = kwInput := by
      simp [selectQuery, pyOr, h1, h2, h3]
    simp [fixedGoogleEmbedderRun, hsel, h4]
  · intro q e hq he
    by_cases ht : truthyStr (some q) = true
    · simp [fixedGoogleEmbedderRun, hq, ht, he]
    · simp only [Bool.not_eq_true] at ht
      simp [fixedGoogleEmbedderRun, hq, ht]
  · have hsel : selectQuery (some "") none none none = none := by
      simp [selectQuery, pyOr, truthyStr]
    simp [fixedGoogleEmbedderRun, hsel, truthyStr]

/-- Witness for C1 at concrete inputs: all fields missing, and a query
whose underlying call raises. -/
theorem fixedGoogleEmbedder_failure_policy_witness :
    fixedGoogleEmbedderRun "m" (fun _ _ _ => .error "boom") none none none none = ([], []) ∧
    (fixedGoogleEmbedderRun "m" (fun _ _ _ => .error "boom")
      (some "q") none none none).1 = [] ∧
    (fixedGoogleEmbedderRun "m" (fun _ _ _ => .error "boom") (some "") none none none).1 = [] := by
  refine ⟨?_, ?_, ?_⟩
  · exact (fixedGoogleEmbedder_failure_policy "m" (fun _ _ _ => .error "boom")
      none none none none).1 rfl rfl rfl rfl
  · exact (fixedGoogleEmbedder_failure_policy "m" (fun _ _ _ => .error "boom")
      (some "q") none none none).2.1 "q" "boom" (by decide) rfl
  · exact (fixedGoogleEmbedder_failure_policy "m" (fun _ _ _ => .error "boom")
      (some "") none none none).2.2

/-- Claim C3: for every non-empty query string q, the query-embedding
operation accepts q under any one of the interchangeable input fields
(positional `text`, positional `input`, keyword `text`, keyword `input`)
and produces the same result regardless of which field carries it. -/
theorem queryFields_interchangeable (m : String) (genai : GenaiOracle) (q : String)
    (h : q ≠ "") :
    fixedGoogleEmbedderRun m genai (some q) none none none
      = fixedGoogleEmbedderRun m genai none (some q) none none ∧
    fixedGoogleEmbedderRun m genai (some q) none none none
      = fixedGoogleEmbedderRun m genai none none (some q) none ∧
    fixedGoogleEmbedderRun m genai (some q) none none none
      = fixedGoogleEmbedderRun m genai none none none (some q) := by
  have ht : truthyStr (some q) = true := by simp [truthyStr, h]
  have h1 : selectQuery (some q) none none none = some q := by
    simp [selectQuery, pyOr, ht, truthyStr, h]
  have h2 : selectQuery none (some q) none none = some q := by
    simp [selectQuery, pyOr, ht, truthyStr, h]
  have h3 : selectQuery none none (some q) none = some q := by
    simp [selectQuery, pyOr, ht, truthyStr, h]
  have h4 : selectQuery none none none (some q) = some q := by
    simp [selectQuery, pyOr, ht, truthyStr, h]
  refine ⟨?_, ?_, ?_⟩ <;> simp [fixedGoogleEmbedderRun, h1, h2, h3, h4, truthyStr, h]

/-- Witness for C3 at the concrete query "verona". -/
theorem queryFields_interchangeable_witness :
    fixedGoogleEmbedderRun "m" (fun _ _ _ => .error "e") (some "verona") none none none
      = fixedGoogleEmbedderRun "m" (fun _ _ _ => .error "e") none none none (some "verona") :=
  (queryFields_interchangeable "m" (fun _ _ _ => .error "e") "verona" (by decide)).2.2

/-- Claim C4: for every non-empty query string, the query-embedding
operation issues exactly one request to the underlying API, with the same
model name that document embedding is configured with
(`models/text-embedding-004` at both construction sites) and with
`task_type="retrieval_query"`, and returns the response's `embedding`
list on success. -/
theorem queryEmbedding_request_shape (genai : GenaiOracle) (q : String) (h : q ≠ "") :
    (fixedGoogleEmbedderRun agentEmbedderModelName genai (some q) (some q) none none).2
      = [⟨agentEmbedderModelName, q, "retrieval_query"⟩] ∧
    agentEmbedderModelName = agentChunkEmbedderModelName ∧
    agentEmbedderModelName = GOOGLE_MODEL_NAME ∧
    (∀ r, genai agentEmbedderModelName q "retrieval_query" = .ok r →
      (fixedGoogleEmbedderRun agentEmbedderModelName genai (some q) (some q) none none).1
        = r.embedding) := by
  have ht : truthyStr (some q) = true := by simp [truthyStr, h]
  have h1 : selectQuery (some q) (some q) none none = some q := by
    simp [selectQuery, pyOr, ht, truthyStr, h]
  refine ⟨?_, rfl, rfl, ?_⟩
  · rcases hg : genai agentEmbedderModelName q "retrieval_query" with e | r <;>
      simp [fixedGoogleEmbedderRun, h1, ht, hg, truthyStr, h]
  · intro r hr
    simp [fixedGoogleEmbedderRun, h1, ht, hr, truthyStr, h]

/-- Witness for C4 at the concrete query "inter" and a succeeding oracle. -/
theorem queryEmbedding_request_shape_witness :
    (fixedGoogleEmbedderRun agentEmbedderModelName (fun _ _ _ => .ok ⟨[1.0]⟩)
      (some "inter") (some "inter") none none).2
      = [⟨agentEmbedderModelName, "inter", "retrieval_query"⟩] ∧
    (fixedGoogleEmbedderRun agentEmbedderModelName (fun _ _ _ => .ok ⟨[1.0]⟩)
      (some "inter") (some "inter") none none).1 = [1.0] := by
  have h := queryEmbedding_request_shape (fun _ _ _ => .ok ⟨[1.0]⟩) "inter" (by decide)
  exact ⟨h.1, h.2.2.2 ⟨[1.0]⟩ rfl⟩

/-- Claim C5: on every query turn where the retrieval stage returned no
chunks, the turn output opens with the distinct no-documents warning and
the generator answer that follows is therefore not surfaced silently. -/
theorem retrievalEmpty_surfaced (res : TurnResult) (h : res.retrieverChunks = []) :
    turnOutput (.ok res) = noDocsWarning ++ ["Agent: " ++ res.generatorAnswer] ∧
    "ATTENZIONE: Il Retriever non ha trovato NESSUN documento!" ∈ turnOutput (.ok res) := by
  constructor
  · simp [turnOutput, h]
  · simp [turnOutput, h, noDocsWarning]

/-- Witness for C5 at a concrete empty retrieval result. -/
theorem retrievalEmpty_surfaced_witness :
    turnOutput (.ok ⟨[], "risposta"⟩)
      = noDocsWarning ++ ["Agent: " ++ "risposta"] :=
  (retrievalEmpty_surfaced ⟨[], "risposta"⟩ rfl).1

/-- Claim C6: if either API credential is missing or malformed at startup
(the Groq key absent or not starting with `gsk_`, or the Google key
absent), `main` prints one error line and terminates before creating any
client, before ingestion, and before building the query DAG. -/
theorem startup_validation (groq google : Option String)
    (h : truthyStr groq = false ∨ pyStartsWith "gsk_" (groq.getD "") = false ∨
      truthyStr google = false) :
    (∃ msg, mainStartup groq google = [.printed msg]) ∧
    MainEvent.llmClientCreated ∉ mainStartup groq google ∧
    MainEvent.embedderClientCreated ∉ mainStartup groq google ∧
    MainEvent.ingestionRan ∉ mainStartup groq google ∧
    MainEvent.dagBuilt ∉ mainStartup groq google := by
  have hmsg : ∃ msg, mainStartup groq google = [.printed msg] := by
    unfold mainStartup
    split
    · exact ⟨_, rfl⟩
    · split
      · exact ⟨_, rfl⟩
      · rename_i h1 h2
        exfalso
        rcases h with h | h | h
        · simp [h] at h1
        · simp [h] at h1
        · simp [h] at h2
  obtain ⟨msg, hm⟩ := hmsg
  rw [hm]
  exact ⟨⟨msg, rfl⟩, by simp, by simp, by simp, by simp⟩

/-- Witness for C6: a missing Groq key, a malformed Groq key, and a
missing Google key, each with a concrete environment. -/
theorem startup_validation_witness :
    (∃ msg, mainStartup none (some "g") = [.printed msg]) ∧
    MainEvent.ingestionRan ∉ mainStartup (some "sk-123") (some "g") ∧
    MainEvent.dagBuilt ∉ mainStartup (some "gsk_123") none := by
  refine ⟨(startup_validation none (some "g") (Or.inl rfl)).1, ?_, ?_⟩
  · exact (startup_validation (some "sk-123") (some "g")
      (Or.inr (Or.inl (by decide)))).2.2.2.1
  · exact (startup_validation (some "gsk_123") none (Or.inr (Or.inr rfl))).2.2.2.2

/-- Claim C7: for every query turn of the interactive loop, a raised
exception is caught and reported as a `Pipeline Error` line and the loop
goes on to process the remaining turns; the error never terminates the
loop. -/
theorem turnError_caught (q e : String) (rest : List (String × Except String TurnResult))
    (h1 : pyLower q ≠ "exit") (h2 : pyLower q ≠ "quit") :
    chatLoop ((q, .error e) :: rest) = ("Pipeline Error: " ++ e) :: chatLoop rest := by
  simp [chatLoop, h1, h2, turnOutput]

/-- Witness for C7: a failing turn followed by a successful one. -/
theorem turnError_caught_witness :
    chatLoop [("chi gioca", Except.error "boom"), ("altro", Except.ok ⟨["c"], "ok"⟩)]
      = ("Pipeline Error: " ++ "boom")
        :: chatLoop [("altro", Except.ok ⟨["c"], "ok"⟩)] :=
  turnError_caught "chi gioca" "boom" [("altro", Except.ok ⟨["c"], "ok"⟩)]
    (by decide) (by decide)

/-- Claim C2: for every sequence of N chunks and batch cap C > 0, with an
underlying embedding call that embeds each batch elementwise,
`embed_documents` returns exactly N vectors, one per input chunk, in
original input order, and issues ceil(N/C) = (N + C - 1) / C underlying
calls; the repository's `FastEmbedder.embed` dense list branch likewise
returns one converted vector per input in order. -/
theorem embed_documents_batching (g : String → List Float) (C : Nat) (hC : 0 < C)
    (texts : List String) :
    embed_documents (List.map g) C texts = texts.map g ∧
    (embed_documents (List.map g) C texts).length = texts.length ∧
    embedDocumentsCalls C texts = (texts.length + C - 1) / C ∧
    fastEmbedderEmbedList (List.map g) texts = texts.map g := by
  have h1 : embed_documents (List.map g) C texts = texts.map g := by
    unfold embed_documents
    rw [← List.map_flatten, flatten_batchChunks]
  refine ⟨h1, ?_, length_batchChunks C hC texts, rfl⟩
  rw [h1]
  simp

/-- Witness for C2: three chunks with batch cap 2 yield three vectors in
order via two underlying calls. -/
theorem embed_documents_batching_witness :
    embed_documents (List.map (fun _ : String => [(1 : Float)])) 2 ["a", "b", "c"]
      = ["a", "b", "c"].map (fun _ => [(1 : Float)]) ∧
    embedDocumentsCalls 2 ["a", "b", "c"] = 2 := by
  have h := embed_documents_batching (fun _ : String => [(1 : Float)]) 2 (by decide)
    ["a", "b", "c"]
  refine ⟨h.1, ?_⟩
  rw [h.2.2.1]
  rfl

/-- Claim C8: the merge produces exactly one combined entry per Sky match,
preserving the order of `sky_matches`; each entry's `source_fantacalcio`
is the first Fantacalcio match (via `List.find?`) whose normalized home
and away names each stand in a mutual-substring relation with the
corresponding normalized Sky name, or `none` when no such match exists;
every Fantacalcio match appearing in the output belongs to the input and
satisfies the relation, so unmatched Fantacalcio matches never appear. -/
theorem integrateMatches_spec (sky : List SkyMatch) (fanta : List FantaMatch) :
    (integrateMatches sky fanta).length = sky.length ∧
    (∀ i (h1 : i < sky.length) (h2 : i < (integrateMatches sky fanta).length),
      ((integrateMatches sky fanta).get ⟨i, h2⟩).source_sky = sky.get ⟨i, h1⟩ ∧
      ((integrateMatches sky fanta).get ⟨i, h2⟩).source_fantacalcio =
        fanta.find? (fantaMatchPred
          (normalize_name (some (skyName (sky.get ⟨i, h1⟩).home)))
          (normalize_name (some (skyName (sky.get ⟨i, h1⟩).away))))) ∧
    (∀ m ∈ integrateMatches sky fanta, ∀ fm, m.source_fantacalcio = some fm →
      fm ∈ fanta ∧
      fantaMatchPred (normalize_name (some (skyName m.source_sky.home)))
        (normalize_name (some (skyName m.source_sky.away))) fm = true) := by
  refine ⟨by simp [integrateMatches], ?_, ?_⟩
  · intro i h1 h2
    constructor
    · simp [integrateMatches]
    · simp [integrateMatches]
  · intro m hm fm hfm
    simp only [integrateMatches, List.mem_map] at hm
    obtain ⟨sm, _, hEq⟩ := hm
    subst hEq
    simp only at hfm
    exact ⟨List.mem_of_find?_eq_some hfm, List.find?_some hfm⟩

/-- Witness for C8: one Sky match (Hellas Verona vs Inter) matched against
one Fantacalcio match (Verona vs Inter) through the substring relation. -/
theorem integrateMatches_spec_witness :
    (integrateMatches [⟨some ⟨some "Hellas Verona"⟩, some ⟨some "Inter"⟩⟩]
        [⟨some "Verona", some "Inter"⟩]).length = 1 ∧
    ((integrateMatches [⟨some ⟨some "Hellas Verona"⟩, some ⟨some "Inter"⟩⟩]
        [⟨some "Verona", some "Inter"⟩]).get ⟨0, by decide⟩).source_fantacalcio
      = some ⟨some "Verona", some "Inter"⟩ := by
  have h := integrateMatches_spec [⟨some ⟨some "Hellas Verona"⟩, some ⟨some "Inter"⟩⟩]
    [⟨some "Verona", some "Inter"⟩]
  refine ⟨h.1, ?_⟩
  have h2 := (h.2.1 0 (by decide) (by decide)).2
  exact h2.trans (by decide)

/-- Claim C9: `get_sky_players` is total on arbitrary input (the embedding
is a total function, so it never raises) and always returns a non-empty
string: `"Data not available"` on falsy input, otherwise the comma-joined
`Name Surname (Role)` entries of the starting lineup where players with an
empty stripped full name are skipped, and `"No players found"` when no
player qualifies. -/
theorem get_sky_players_total (td : Option TeamData) :
    get_sky_players td ≠ "" ∧
    get_sky_players none = "Data not available" ∧
    (∀ t, td = some t →
      get_sky_players td =
        (if skyStarters t = [] then "No players found" else pyJoin ", " (skyStarters t))) ∧
    (∀ p : SkyPlayer, pyFullName (p.name.getD "") (p.surname.getD "") = "" →
      skyPlayerEntry p = none) := by
  refine ⟨get_sky_players_ne_empty td, rfl, ?_, ?_⟩
  · intro t ht
    subst ht
    rfl
  · intro p hp
    simp [skyPlayerEntry, hp]

/-- Witness for C9: a lineup with one named player and one player whose
name and surname are both empty. -/
theorem get_sky_players_total_witness :
    get_sky_players (some ⟨some ⟨some [⟨some "Mario", some "Rossi", some "Defender"⟩,
        ⟨some "", some "", none⟩]⟩⟩) ≠ "" ∧
    skyPlayerEntry ⟨some "", some "", none⟩ = none := by
  have h := get_sky_players_total (some ⟨some ⟨some
    [⟨some "Mario", some "Rossi", some "Defender"⟩, ⟨some "", some "", none⟩]⟩⟩)
  exact ⟨h.1, h.2.2.2 ⟨some "", some "", none⟩ (by decide)⟩

/-- Claim C10: `normalize_name` is idempotent — feeding its output back in
returns the same string — and it returns the empty string on every falsy
input (`None` and `""`). -/
theorem normalize_name_idempotent :
    (∀ x : Option String, normalize_name (some (normalize_name x)) = normalize_name x) ∧
    normalize_name none = "" ∧ normalize_name (some "") = "" := by
  refine ⟨?_, rfl, rfl⟩
  intro x
  rcases x with _ | s
  · rfl
  · show normalize_name (some (normalize_name (some s))) = normalize_name (some s)
    by_cases hs : s = ""
    · subst hs
      rfl
    · have h1 : normalize_name (some s) = pyStrip (pyLower s) := by
        simp [normalize_name, hs]
      rw [h1]
      by_cases ht : pyStrip (pyLower s) = ""
      · rw [ht]
        rfl
      · have h2 : normalize_name (some (pyStrip (pyLower s)))
            = pyStrip (pyLower (pyStrip (pyLower s))) := by
          simp [normalize_name, ht]
        rw [h2]
        show String.mk (stripChars ((stripChars (s.data.map pyLowerChar)).map pyLowerChar))
          = String.mk (stripChars (s.data.map pyLowerChar))
        rw [← stripChars_map, map_pyLowerChar_idem, stripChars_idem]
